import Mathlib

/-
  Shallow embedding of the movie-review web application (src/app.py).

  The two database tables, the bcrypt hash pair, the flask session and the
  route handlers are translated into plain Lean functions.  Nondeterministic
  inputs of a request (the random bcrypt salt, the process environment, the
  upstream HTTP transport) are passed as explicit arguments.  Fatal runtime
  faults of a handler (a KeyError from a missing form field, an IntegrityError
  from the uniqueness constraint at commit time) are the error side of Except.
-/

namespace MovieApp

/-- Modelled from the spec: the salted one-way password hash produced by the
flask_bcrypt library, which is not part of the repository sources.  A stored
hash carries its salt and a digest that is deterministic in the salt and the
password, and collision-free for a fixed salt (section 4.1 of the spec: a
salted one-way hash whose verification of the correct password always
succeeds). -/
structure BcryptHash where
  salt : Nat
  digest : String
deriving DecidableEq, Repr

/-- Modelled from the spec: the digest component of a bcrypt hash,
deterministic in salt and password. -/
def bcryptDigest (salt : Nat) (pw : String) : String :=
  toString salt ++ ":" ++ pw

/-- Modelled from the spec: bcrypt.generate_password_hash, with the random
salt drawn by the library made an explicit argument. -/
def generate_password_hash (salt : Nat) (pw : String) : BcryptHash :=
  { salt := salt, digest := bcryptDigest salt pw }

/-- Modelled from the spec: bcrypt.check_password_hash re-derives the digest
from the salt carried by the stored hash and compares. -/
def check_password_hash (h : BcryptHash) (pw : String) : Bool :=
  h.digest == bcryptDigest h.salt pw

/-- Modelled from the spec: the utf-8 string form of a bcrypt hash, the value
actually stored in the password column, with the standard version header. -/
def renderHash (h : BcryptHash) : String :=
  "$2b$12$" ++ h.digest

/-- Row of the users table (class User, src/app.py lines 44-52). -/
structure User where
  id : Nat
  username : String
  password : BcryptHash
deriving DecidableEq, Repr

/-- Row of the reviews table (class Review, src/app.py lines 54-65). -/
structure Review where
  id : Nat
  movie_title : String
  review_text : String
  user_id : Nat
deriving DecidableEq, Repr

/-- The two tables together with the autoincrement counters of their primary
keys. -/
structure DB where
  users : List User
  reviews : List Review
  nextUserId : Nat
  nextReviewId : Nat
deriving DecidableEq, Repr

def emptyDB : DB :=
  { users := [], reviews := [], nextUserId := 1, nextReviewId := 1 }

/-- State visible to one request: the database and the flask_login session,
holding the id of the logged-in user when there is one. -/
structure AppState where
  db : DB
  session : Option Nat
deriving DecidableEq, Repr

/-- Unhandled runtime faults of a handler: a KeyError from subscripting a
missing form field, and an IntegrityError from a storage uniqueness
constraint.  Either one is fatal to the request (5xx-equivalent). -/
inductive PyError where
  | keyError (key : String)
  | integrityError
deriving DecidableEq, Repr

/-- The HTTP response of a handler, at the granularity the claims need:
redirect(url_for(endpoint)) or render_template with its data. -/
inductive Response where
  | redirect (endpoint : String)
  | renderTemplate (tname : String)
  | renderReviews (title : String) (reviews : List Review)
  | renderSearch (movie : Option String)
deriving DecidableEq, Repr

inductive Method where
  | GET
  | POST
deriving DecidableEq, Repr

/-- A form-encoded request body. -/
abbrev Form := List (String × String)

/-- Lookup of request.form.get key: none when the field is absent. -/
def formGet (form : Form) (key : String) : Option String :=
  (form.find? (fun kv => kv.1 == key)).map (fun kv => kv.2)

/-- Subscript access request.form key: raises KeyError when absent. -/
def formItem (form : Form) (key : String) : Except PyError String :=
  match formGet form key with
  | some v => Except.ok v
  | none => Except.error (PyError.keyError key)

/-- The two-field registration and login form. -/
def mkForm (username password : String) : Form :=
  [("username", username), ("password", password)]

/-- Query User.query.filter_by(username=...).first(): first user row whose
username matches exactly (src/app.py lines 105 and 136). -/
def findUserByUsername (db : DB) (username : String) : Option User :=
  db.users.find? (fun u => u.username == username)

/-- Query User.query.get(user_id), the flask_login user loader
(src/app.py lines 72-78). -/
def load_user (db : DB) (user_id : Nat) : Option User :=
  db.users.find? (fun u => u.id == user_id)

/-- The current_user of a request: the user row the session id resolves to,
if the session holds the id of an existing user. -/
def currentUser (st : AppState) : Option User :=
  st.session.bind (fun uid => load_user st.db uid)

/-- Commit db.session.add(new_user) against the unique constraint on
users.username (src/app.py line 51): appends the row, or fails with
IntegrityError when a row with that username already exists. -/
def insertUser (db : DB) (u : User) : Except PyError DB :=
  if db.users.any (fun v => v.username == u.username) then
    Except.error PyError.integrityError
  else
    Except.ok { db with users := db.users ++ [u], nextUserId := db.nextUserId + 1 }

/-- Commit db.session.add(new_review): appends the review row
(src/app.py lines 184-190). -/
def insertReview (db : DB) (movie_title review_text : String) (user_id : Nat) : DB :=
  { db with
    reviews := db.reviews ++
      [{ id := db.nextReviewId, movie_title := movie_title,
         review_text := review_text, user_id := user_id }],
    nextReviewId := db.nextReviewId + 1 }

/-- The POST branch of the register route (src/app.py lines 100-120): read the
two form fields, pre-check for an existing username and redirect back to the
form if found, otherwise hash, insert, log the new user in and redirect home.
The commit is wrapped in no exception handler in the source, so an insert
failure propagates. -/
def registerPost (st : AppState) (form : Form) (salt : Nat) :
    Except PyError (AppState × Response) :=
  match formItem form "username", formItem form "password" with
  | Except.error e, _ => Except.error e
  | Except.ok _, Except.error e => Except.error e
  | Except.ok username, Except.ok password =>
    if (findUserByUsername st.db username).isSome then
      Except.ok (st, Response.redirect "register")
    else
      let hashed_pw := generate_password_hash salt password
      let new_user : User :=
        { id := st.db.nextUserId, username := username, password := hashed_pw }
      match insertUser st.db new_user with
      | Except.error e => Except.error e
      | Except.ok db1 =>
        Except.ok ({ db := db1, session := some new_user.id }, Response.redirect "home")

/-- The register route (src/app.py lines 93-122). -/
def registerRoute (st : AppState) (method : Method) (form : Form) (salt : Nat) :
    Except PyError (AppState × Response) :=
  match method with
  | Method.POST => registerPost st form salt
  | Method.GET => Except.ok (st, Response.renderTemplate "register.html")

/-- The POST branch of register with a database interleaving applied between
the duplicate pre-check (src/app.py line 105) and the commit (line 116):
other is the net effect of the requests that commit inside that window, per
the concurrency model of section 5 of the spec, under which concurrent
requests are not coordinated.  With other the identity this coincides with
registerPost. -/
def registerPostRaced (st : AppState) (form : Form) (salt : Nat) (other : DB → DB) :
    Except PyError (AppState × Response) :=
  match formItem form "username", formItem form "password" with
  | Except.error e, _ => Except.error e
  | Except.ok _, Except.error e => Except.error e
  | Except.ok username, Except.ok password =>
    if (findUserByUsername st.db username).isSome then
      Except.ok (st, Response.redirect "register")
    else
      let hashed_pw := generate_password_hash salt password
      let db0 := other st.db
      let new_user : User :=
        { id := db0.nextUserId, username := username, password := hashed_pw }
      match insertUser db0 new_user with
      | Except.error e => Except.error e
      | Except.ok db1 =>
        Except.ok ({ db := db1, session := some new_user.id }, Response.redirect "home")

/-- The POST branch of the login route (src/app.py lines 131-142): look the
user up by username, verify the password hash, and either log in and redirect
home or redirect back to the login form. -/
def loginPost (st : AppState) (form : Form) : Except PyError (AppState × Response) :=
  match formItem form "username", formItem form "password" with
  | Except.error e, _ => Except.error e
  | Except.ok _, Except.error e => Except.error e
  | Except.ok username, Except.ok password =>
    match findUserByUsername st.db username with
    | some user =>
      if check_password_hash user.password password then
        Except.ok ({ st with session := some user.id }, Response.redirect "home")
      else
        Except.ok (st, Response.redirect "login")
    | none => Except.ok (st, Response.redirect "login")

/-- The login route (src/app.py lines 124-144). -/
def loginRoute (st : AppState) (method : Method) (form : Form) :
    Except PyError (AppState × Response) :=
  match method with
  | Method.POST => loginPost st form
  | Method.GET => Except.ok (st, Response.renderTemplate "login.html")

/-- The review route (src/app.py lines 174-193) together with its
login_required guard: with no valid session the guard redirects to the
login view (login_manager.login_view, src/app.py line 34) before the handler
body runs; otherwise POST reads the review_text field by subscript (KeyError
when absent), inserts the review row for the current user and redirects home,
and GET renders the form. -/
def reviewRoute (st : AppState) (title : String) (method : Method) (form : Form) :
    Except PyError (AppState × Response) :=
  match currentUser st with
  | none => Except.ok (st, Response.redirect "login")
  | some user =>
    match method with
    | Method.POST =>
      match formItem form "review_text" with
      | Except.error e => Except.error e
      | Except.ok review_text =>
        Except.ok ({ st with db := insertReview st.db title review_text user.id },
          Response.redirect "home")
    | Method.GET => Except.ok (st, Response.renderTemplate "review.html")

/-- The view_reviews route (src/app.py lines 195-201):
Review.query.filter_by(movie_title=title).all() rendered into the list
template. -/
def view_reviews (st : AppState) (title : String) : Response :=
  Response.renderReviews title (st.db.reviews.filter (fun r => r.movie_title == title))

/-- Call os.getenv name fallback over an explicit process environment. -/
def os_getenv (env : String → Option String) (ename fallback : String) : String :=
  (env ename).getD fallback

/-- The value assigned to app.config SECRET_KEY at src/app.py line 26: the
session-signing secret, read from the SECRET_KEY environment variable with a
literal fallback. -/
def SECRET_KEY_config (env : String → Option String) : String :=
  os_getenv env "SECRET_KEY" "fallback-secret-key"

/-- The module-level OMDB_API_KEY at src/app.py line 37: the metadata
provider api key, read from the OMDB_API_KEY environment variable with a
literal fallback. -/
def OMDB_API_KEY (env : String → Option String) : String :=
  os_getenv env "OMDB_API_KEY" "fallback-api-key"

/-- Upstream HTTP response as the handler consumes it: requests.get yields a
status code and a body; response.json() is modelled as the body passed
through unmodified, since the handler does not inspect it. -/
structure HttpResponse where
  status_code : Nat
  body : String
deriving DecidableEq, Repr

/-- Python string rendering of an optional string inside an f-string: the
None value prints as the literal string None. -/
def pyStr : Option String → String
  | some s => s
  | none => "None"

/-- The url built at src/app.py line 167 by f-string interpolation. -/
def searchUrl (apiKey : String) (title : Option String) : String :=
  "http://www.omdbapi.com/?apikey=" ++ apiKey ++ "&t=" ++ pyStr title

/-- The POST branch of the search route (src/app.py lines 164-172): read the
title with request.form.get, build the url, issue the outbound GET through
the transport http, and render the parsed body when the status is 200 and
null movie data otherwise. -/
def searchPost (apiKey : String) (http : String → HttpResponse) (form : Form) : Response :=
  let title := formGet form "title"
  let url := searchUrl apiKey title
  let response := http url
  let movie_data : Option String :=
    if response.status_code == 200 then some response.body else none
  Response.renderSearch movie_data

/-- The search route (src/app.py lines 155-172). -/
def searchRoute (apiKey : String) (http : String → HttpResponse)
    (method : Method) (form : Form) : Response :=
  match method with
  | Method.POST => searchPost apiKey http form
  | Method.GET => Response.renderSearch none

/-- A concrete environment holding only the SECRET_KEY variable. -/
def env0 : String → Option String :=
  fun ename => if ename == "SECRET_KEY" then some "session-secret-0" else none

/-- Net effect of a concurrent registration of the given username committing
inside the pre-check-to-commit window. -/
def raceInsert (username : String) (db : DB) : DB :=
  { db with
    users := db.users ++
      [{ id := db.nextUserId, username := username,
         password := generate_password_hash 1 "pw2" }],
    nextUserId := db.nextUserId + 1 }

/-- A previously registered user, for concrete witnesses. -/
def userAlice : User :=
  { id := 1, username := "alice", password := generate_password_hash 0 "pw0" }

/-- A state with one registered user and no session. -/
def stAlice : AppState :=
  { db := { users := [userAlice], reviews := [], nextUserId := 2, nextReviewId := 1 },
    session := none }

/-- A state with one registered user whose session is active. -/
def stLogged : AppState :=
  { db := { users := [userAlice], reviews := [], nextUserId := 2, nextReviewId := 1 },
    session := some 1 }

/-- A transport whose upstream answers 404 to every request. -/
def http404 : String → HttpResponse :=
  fun _ => { status_code := 404, body := "Not Found" }

/-- The fresh user row register inserts on success. -/
def newUser (st : AppState) (username password : String) (salt : Nat) : User :=
  { id := st.db.nextUserId, username := username,
    password := generate_password_hash salt password }

/-- A concrete review row, for witnesses. -/
def reviewDune : Review :=
  { id := 1, movie_title := "Dune", review_text := "Great", user_id := 1 }

/-- A second concrete review row with a different title. -/
def reviewAlien : Review :=
  { id := 2, movie_title := "Alien", review_text := "Scary", user_id := 1 }

/-- A concrete database holding one user and two reviews. -/
def dbSample : DB :=
  { users := [userAlice], reviews := [reviewDune, reviewAlien],
    nextUserId := 2, nextReviewId := 3 }

theorem string_append_cancel_left {a b c : String} (h : a ++ b = a ++ c) : b = c := by
  apply String.ext
  have hd := congrArg String.data h
  simp only [String.data_append] at hd
  exact List.append_cancel_left hd

theorem bcryptDigest_inj {salt : Nat} {pw pw2 : String}
    (h : bcryptDigest salt pw = bcryptDigest salt pw2) : pw = pw2 := by
  unfold bcryptDigest at h
  exact string_append_cancel_left h

theorem check_generate_eq_true (salt : Nat) (pw : String) :
    check_password_hash (generate_password_hash salt pw) pw = true := by
  simp [check_password_hash, generate_password_hash]

theorem check_generate_eq_false (salt : Nat) (pw pw2 : String) (h : pw2 ≠ pw) :
    check_password_hash (generate_password_hash salt pw) pw2 = false := by
  simp only [check_password_hash, generate_password_hash, beq_eq_false_iff_ne, ne_eq]
  exact fun hEq => h (bcryptDigest_inj hEq).symm

theorem renderHash_ne_plaintext (salt : Nat) (pw : String) :
    renderHash (generate_password_hash salt pw) ≠ pw := by
  intro hEq
  have hlen := congrArg String.length hEq
  simp only [renderHash, generate_password_hash, bcryptDigest, String.length_append] at hlen
  have h7 : ("$2b$12$" : String).length = 7 := rfl
  have h1 : (":" : String).length = 1 := rfl
  rw [h7, h1] at hlen
  omega

theorem registerPost_success (st : AppState) (username password : String) (salt : Nat)
    (hno : findUserByUsername st.db username = none) :
    registerPost st (mkForm username password) salt =
      Except.ok
        ({ db := { users := st.db.users ++ [newUser st username password salt],
                   reviews := st.db.reviews,
                   nextUserId := st.db.nextUserId + 1,
                   nextReviewId := st.db.nextReviewId },
           session := some st.db.nextUserId },
         Response.redirect "home") := by
  have hform_u : formItem (mkForm username password) "username" = Except.ok username := rfl
  have hform_p : formItem (mkForm username password) "password" = Except.ok password := rfl
  have hany : st.db.users.any (fun v => v.username == username) = false := by
    rw [List.any_eq_false]
    rw [findUserByUsername, List.find?_eq_none] at hno
    exact hno
  simp [registerPost, hform_u, hform_p, hno, insertUser, newUser, hany]

theorem registerPostRaced_id (st : AppState) (form : Form) (salt : Nat) :
    registerPostRaced st form salt (fun db => db) = registerPost st form salt := by
  simp [registerPostRaced, registerPost]

theorem loginPost_found (st : AppState) (username password : String) (u : User)
    (hu : findUserByUsername st.db username = some u) :
    loginPost st (mkForm username password) =
      if check_password_hash u.password password then
        Except.ok ({ st with session := some u.id }, Response.redirect "home")
      else
        Except.ok (st, Response.redirect "login") := by
  have h1 : formItem (mkForm username password) "username" = Except.ok username := rfl
  have h2 : formItem (mkForm username password) "password" = Except.ok password := rfl
  simp [loginPost, h1, h2, hu]

/-- C1: for every previously-registered username, a registration attempt with
that same username inserts no second User row into the users table, and the
response is a redirect back to the registration form. -/
theorem register_duplicate_no_insert (st : AppState) (form : Form) (salt : Nat)
    (u : User) (hmem : u ∈ st.db.users)
    (hu : formItem form "username" = Except.ok u.username)
    (hp : (formGet form "password").isSome = true) :
    registerPost st form salt = Except.ok (st, Response.redirect "register") := by
  obtain ⟨p, hpEq⟩ := Option.isSome_iff_exists.mp hp
  have hpItem : formItem form "password" = Except.ok p := by
    rw [formItem, hpEq]
  have hsome : (findUserByUsername st.db u.username).isSome = true := by
    rw [findUserByUsername]
    simp only [List.find?_isSome]
    exact ⟨u, hmem, by simp⟩
  simp [registerPost, hu, hpItem, hsome]

/-- Witness for C1 at a concrete duplicate registration. -/
theorem register_duplicate_no_insert_witness :
    registerPost stAlice [("username", "alice"), ("password", "pw1")] 0 =
      Except.ok (stAlice, Response.redirect "register") :=
  register_duplicate_no_insert stAlice [("username", "alice"), ("password", "pw1")] 0
    userAlice (by decide) rfl rfl

/-- C5: every request to the review route without a valid session is rejected
by the login_required guard before the handler body runs: the state (hence the
reviews table) is unchanged and the response is a redirect to the login
view. -/
theorem review_unauthenticated_rejected (st : AppState) (title : String)
    (method : Method) (form : Form) (h : currentUser st = none) :
    reviewRoute st title method form = Except.ok (st, Response.redirect "login") := by
  simp [reviewRoute, h]

/-- Witness for C5 at a concrete unauthenticated POST. -/
theorem review_unauthenticated_rejected_witness :
    reviewRoute { db := emptyDB, session := none } "Dune" Method.POST
        [("review_text", "Great")] =
      Except.ok ({ db := emptyDB, session := none }, Response.redirect "login") :=
  review_unauthenticated_rejected { db := emptyDB, session := none } "Dune"
    Method.POST [("review_text", "Great")] rfl

/-- C9: an authenticated POST to the review route whose form lacks the
review_text field fails with a raw KeyError fatal to the request, with no
state change, so no Review row is inserted. -/
theorem review_missing_field_fatal (st : AppState) (title : String) (form : Form)
    (u : User) (hauth : currentUser st = some u)
    (hmiss : formGet form "review_text" = none) :
    reviewRoute st title Method.POST form =
      Except.error (PyError.keyError "review_text") := by
  simp [reviewRoute, hauth, formItem, hmiss]

/-- Witness for C9 at a concrete authenticated POST with an empty form. -/
theorem review_missing_field_fatal_witness :
    reviewRoute stLogged "Dune" Method.POST [] =
      Except.error (PyError.keyError "review_text") :=
  review_missing_field_fatal stLogged "Dune" [] userAlice rfl rfl

/-- C7 counterexample: when a concurrent registration of the same username
commits between the duplicate pre-check and the insert, the uniqueness
violation raised by the insert is not converted to the duplicate-username
redirect: it propagates as a fatal IntegrityError. -/
theorem register_race_counterexample :
    registerPostRaced { db := emptyDB, session := none } (mkForm "alice" "pw1") 0
        (raceInsert "alice") =
      Except.error PyError.integrityError := rfl

/-- C7 amended: a uniqueness ConstraintViolation raised by the user insert is
not caught at the persistence boundary: whenever the pre-check passes but the
username is taken at insert time, register fails fatally with IntegrityError
instead of redirecting to the registration form. -/
theorem register_race_uncaught (st : AppState) (username password : String)
    (salt : Nat) (other : DB → DB)
    (hno : findUserByUsername st.db username = none)
    (hdup : (other st.db).users.any (fun v => v.username == username) = true) :
    registerPostRaced st (mkForm username password) salt other =
      Except.error PyError.integrityError := by
  have hform_u : formItem (mkForm username password) "username" = Except.ok username := rfl
  have hform_p : formItem (mkForm username password) "password" = Except.ok password := rfl
  simp [registerPostRaced, hform_u, hform_p, hno, insertUser, hdup]

/-- Witness for the amended C7 at a concrete raced registration. -/
theorem register_race_uncaught_witness :
    registerPostRaced { db := emptyDB, session := none } (mkForm "bob" "pw1") 0
        (raceInsert "bob") =
      Except.error PyError.integrityError :=
  register_race_uncaught { db := emptyDB, session := none } "bob" "pw1" 0
    (raceInsert "bob") rfl (by decide)

/-- C8 counterexample: the metadata api key is not read from the SECRET_KEY
environment variable: in an environment where only SECRET_KEY is set, the key
used is the OMDB fallback, and no fallback constant makes the key equal the
SECRET_KEY variable across environments. -/
theorem omdb_key_not_from_secret_env :
    env0 "SECRET_KEY" = some "session-secret-0" ∧
    OMDB_API_KEY env0 = "fallback-api-key" ∧
    ¬ ∃ fb : String, ∀ env : String → Option String,
        OMDB_API_KEY env = (env "SECRET_KEY").getD fb := by
  refine ⟨rfl, rfl, ?_⟩
  rintro ⟨fb, h⟩
  have h1 := h env0
  have e1 : env0 "OMDB_API_KEY" = none := rfl
  have e2 : env0 "SECRET_KEY" = some "session-secret-0" := rfl
  rw [OMDB_API_KEY, os_getenv, e1, e2] at h1
  simp only [Option.getD_none, Option.getD_some] at h1
  exact absurd h1 (by decide)

/-- C8 amended: the metadata api key is read from the OMDB_API_KEY environment
variable with the literal fallback fallback-api-key when unset, while
SECRET_KEY with its own literal fallback configures the separate
session-signing secret. -/
theorem config_keys_from_env (env : String → Option String) :
    (env "OMDB_API_KEY" = none → OMDB_API_KEY env = "fallback-api-key") ∧
    (∀ v, env "OMDB_API_KEY" = some v → OMDB_API_KEY env = v) ∧
    (env "SECRET_KEY" = none → SECRET_KEY_config env = "fallback-secret-key") ∧
    (∀ v, env "SECRET_KEY" = some v → SECRET_KEY_config env = v) := by
  refine ⟨?_, ?_, ?_, ?_⟩ <;> intro h
  · simp [OMDB_API_KEY, os_getenv, h]
  · intro hv; simp [OMDB_API_KEY, os_getenv, hv]
  · simp [SECRET_KEY_config, os_getenv, h]
  · intro hv; simp [SECRET_KEY_config, os_getenv, hv]

/-- Witness for the amended C8 at the concrete environment env0. -/
theorem config_keys_from_env_witness :
    OMDB_API_KEY env0 = "fallback-api-key" ∧
    SECRET_KEY_config env0 = "session-secret-0" :=
  ⟨(config_keys_from_env env0).1 rfl,
   (config_keys_from_env env0).2.2.2 "session-secret-0" rfl⟩

/-- C2: after a registration of (username, password) succeeds, login with the
same pair succeeds, logging the user in and redirecting home, while login
with any other password redirects back to the login form with the state
unchanged. -/
theorem register_then_login (st : AppState) (username password : String) (salt : Nat)
    (hno : findUserByUsername st.db username = none) :
    ∃ st1 : AppState,
      registerPost st (mkForm username password) salt =
        Except.ok (st1, Response.redirect "home") ∧
      loginPost st1 (mkForm username password) =
        Except.ok (st1, Response.redirect "home") ∧
      ∀ password2, password2 ≠ password →
        loginPost st1 (mkForm username password2) =
          Except.ok (st1, Response.redirect "login") := by
  refine ⟨_, registerPost_success st username password salt hno, ?_, ?_⟩
  all_goals
    have hfind : findUserByUsername
        { users := st.db.users ++ [newUser st username password salt],
          reviews := st.db.reviews,
          nextUserId := st.db.nextUserId + 1,
          nextReviewId := st.db.nextReviewId } username
        = some (newUser st username password salt) := by
      show (st.db.users ++ [newUser st username password salt]).find?
          (fun u => u.username == username) = _
      rw [List.find?_append]
      rw [findUserByUsername] at hno
      rw [hno]
      simp [newUser]
  · rw [loginPost_found _ username password _ hfind]
    simp [newUser, check_generate_eq_true]
  · intro password2 hne
    rw [loginPost_found _ username password2 _ hfind]
    simp [newUser, check_generate_eq_false salt password password2 hne]

/-- Witness for C2 at a concrete registration on the empty database. -/
theorem register_then_login_witness :
    ∃ st1 : AppState,
      registerPost { db := emptyDB, session := none } (mkForm "alice" "pw1") 0 =
        Except.ok (st1, Response.redirect "home") ∧
      loginPost st1 (mkForm "alice" "pw1") =
        Except.ok (st1, Response.redirect "home") ∧
      ∀ password2, password2 ≠ "pw1" →
        loginPost st1 (mkForm "alice" password2) =
          Except.ok (st1, Response.redirect "login") :=
  register_then_login { db := emptyDB, session := none } "alice" "pw1" 0 rfl

/-- C3: the hash stored for the new user at registration is never equal to
the plaintext password, and verifying that plaintext against the stored hash
succeeds. -/
theorem registered_hash_roundtrip (st : AppState) (username password : String)
    (salt : Nat) (hno : findUserByUsername st.db username = none) :
    ∃ st1 resp,
      registerPost st (mkForm username password) salt = Except.ok (st1, resp) ∧
      ∃ u, u ∈ st1.db.users ∧ u.username = username ∧
        renderHash u.password ≠ password ∧
        check_password_hash u.password password = true := by
  refine ⟨_, _, registerPost_success st username password salt hno, ?_⟩
  refine ⟨newUser st username password salt, by simp, rfl, ?_, ?_⟩
  · exact renderHash_ne_plaintext salt password
  · exact check_generate_eq_true salt password

/-- Witness for C3 at a concrete registration on the empty database. -/
theorem registered_hash_roundtrip_witness :
    ∃ st1 resp,
      registerPost { db := emptyDB, session := none } (mkForm "alice" "pw1") 0 =
        Except.ok (st1, resp) ∧
      ∃ u, u ∈ st1.db.users ∧ u.username = "alice" ∧
        renderHash u.password ≠ "pw1" ∧
        check_password_hash u.password "pw1" = true :=
  registered_hash_roundtrip { db := emptyDB, session := none } "alice" "pw1" 0 rfl

/-- C4: the reviews view for title t renders exactly the reviews whose
movie_title equals t under exact string comparison, in a stable order (a
sublist of the table order), the empty list when none match, and a review
just inserted for t is appended at the end of the rendered list. -/
theorem view_reviews_exact_match (st : AppState) (t : String) :
    ∃ l, view_reviews st t = Response.renderReviews t l ∧
      (∀ r, r ∈ l ↔ r ∈ st.db.reviews ∧ r.movie_title = t) ∧
      List.Sublist l st.db.reviews ∧
      ((∀ r ∈ st.db.reviews, r.movie_title ≠ t) → l = []) ∧
      ∀ txt uid sess,
        view_reviews { db := insertReview st.db t txt uid, session := sess } t =
          Response.renderReviews t
            (l ++ [{ id := st.db.nextReviewId, movie_title := t,
                     review_text := txt, user_id := uid }]) := by
  refine ⟨_, rfl, ?_, List.filter_sublist _, ?_, ?_⟩
  · intro r
    simp [List.mem_filter]
  · intro h
    rw [List.filter_eq_nil_iff]
    intro a ha
    simpa using h a ha
  · intro txt uid sess
    simp [view_reviews, insertReview, List.filter_append]

/-- Witness for C4 at a concrete state holding reviews for two titles. -/
theorem view_reviews_exact_match_witness :
    ∃ l, view_reviews { db := dbSample, session := none } "Dune" =
        Response.renderReviews "Dune" l ∧
      (∀ r, r ∈ l ↔ r ∈ dbSample.reviews ∧ r.movie_title = "Dune") ∧
      List.Sublist l dbSample.reviews ∧
      ((∀ r ∈ dbSample.reviews, r.movie_title ≠ "Dune") → l = []) ∧
      ∀ txt uid sess,
        view_reviews { db := insertReview dbSample "Dune" txt uid, session := sess }
            "Dune" =
          Response.renderReviews "Dune"
            (l ++ [{ id := dbSample.nextReviewId, movie_title := "Dune",
                     review_text := txt, user_id := uid }]) :=
  view_reviews_exact_match { db := dbSample, session := none } "Dune"

/-- C6: the search POST renders null movie data whenever the upstream
response for the built url has a non-200 status, and renders the upstream
body passed through unmodified whenever the status is 200. -/
theorem search_upstream_status (apiKey : String) (http : String → HttpResponse)
    (form : Form) (resp : HttpResponse)
    (hresp : http (searchUrl apiKey (formGet form "title")) = resp) :
    (resp.status_code ≠ 200 → searchPost apiKey http form = Response.renderSearch none) ∧
    (resp.status_code = 200 →
      searchPost apiKey http form = Response.renderSearch (some resp.body)) := by
  constructor
  · intro hne
    simp [searchPost, hresp, hne]
  · intro he
    simp [searchPost, hresp, he]

/-- Witness for C6: a 404 upstream yields a render with null movie data. -/
theorem search_upstream_status_witness :
    searchPost "fallback-api-key" http404 [("title", "NoSuchMovieXYZ")] =
      Response.renderSearch none :=
  (search_upstream_status "fallback-api-key" http404 [("title", "NoSuchMovieXYZ")]
    { status_code := 404, body := "Not Found" } rfl).1 (by decide)

/-- C10: a search POST without a title field raises no fault: the missing
field reads as the null value, the outbound url interpolates it as the
literal string None, and the handler still renders from the response the
transport gives for that url. -/
theorem search_missing_title_sends_none (apiKey : String)
    (http : String → HttpResponse) (form : Form)
    (hmiss : formGet form "title" = none) :
    searchUrl apiKey (formGet form "title") =
      "http://www.omdbapi.com/?apikey=" ++ apiKey ++ "&t=None" ∧
    searchPost apiKey http form =
      Response.renderSearch
        (if (http (searchUrl apiKey none)).status_code == 200
         then some (http (searchUrl apiKey none)).body else none) := by
  constructor
  · rw [hmiss, searchUrl, String.append_assoc]
    rfl
  · simp [searchPost, hmiss]

/-- Witness for C10 at a concrete form lacking the title field. -/
theorem search_missing_title_sends_none_witness :
    searchUrl "fallback-api-key" (formGet [("q", "x")] "title") =
      "http://www.omdbapi.com/?apikey=" ++ "fallback-api-key" ++ "&t=None" ∧
    searchPost "fallback-api-key" http404 [("q", "x")] =
      Response.renderSearch
        (if (http404 (searchUrl "fallback-api-key" none)).status_code == 200
         then some (http404 (searchUrl "fallback-api-key" none)).body else none) :=
  search_missing_title_sends_none "fallback-api-key" http404 [("q", "x")] rfl
